import Mathlib

/-!
Shallow embedding of `src/lib/jcashBEConstruct.ts` (the `JCashBEConstruct`
CDK construct of the jcash repository) and proofs about the resource
composition it declares.

The construct is a single synchronous composition: it builds a VPC, a
security group, an RDS subnet group, an Aurora serverless cluster, a
secrets-manager interface VPC endpoint, one Node.js lambda and a
`LambdaRestApi`.  Each CDK construct instantiation is embedded as a plain
record holding exactly the properties the source passes; the whole
constructor becomes the function `compose`.

Provider-assigned data (the ARN of the cluster's auto-generated credential
secret) and ambient process state (`process.env.ENV`) are inputs of
`compose`, since the source reads them rather than computing them.
-/

namespace JCash

/-- JavaScript `x || d` on a string `x`: the default `d` is taken when `x`
is the empty string (falsiness), mirroring `this.stage || 'dev'` at
line 102 of the source. -/
def jsOrStr (x d : String) : String :=
  if x = "" then d else x

/-- JavaScript `x || d` on an optional string `x` (`undefined` or a
string), mirroring `props.stage || 'dev'` (line 43),
`process.env.ENV || 'development'` (line 157) and
`this.auroraCluster.secret?.secretArn || ''` (lines 119 and 158). -/
def jsOrOptStr (x : Option String) (d : String) : String :=
  match x with
  | none => d
  | some s => jsOrStr s d

/-- `SubnetType` from `@aws-cdk/aws-ec2`, restricted to the members the
source uses. -/
inductive SubnetType where
  | PUBLIC
  | PRIVATE_ISOLATED
deriving DecidableEq

/-- `RemovalPolicy` from `@aws-cdk/core`, restricted to the members the
source uses (plus `RETAIN` for contrast). -/
inductive RemovalPolicy where
  | DESTROY
  | RETAIN
deriving DecidableEq

/-- One entry of the `subnetConfiguration` array passed to `new Vpc`. -/
structure SubnetConfigurationEntry where
  cidrMask : Nat
  name : String
  subnetType : SubnetType
deriving DecidableEq

/-- The properties the source passes to `new Vpc` in `generateVPC`
(lines 173-193). -/
structure VpcProps where
  cidr : String
  natGateways : Nat
  maxAzs : Nat
  enableDnsHostnames : Bool
  enableDnsSupport : Bool
  subnetConfiguration : List SubnetConfigurationEntry
deriving DecidableEq

/-- CDK synthesizes one subnet per configured tier per availability zone:
the subnets of a VPC are the pairs (availability zone index, tier). -/
def VpcProps.synthesizedSubnets (v : VpcProps) :
    List (Nat × SubnetConfigurationEntry) :=
  (List.range v.maxAzs).flatMap fun az =>
    v.subnetConfiguration.map fun c => (az, c)

/-- The source of an ingress rule: either the security group itself
(`securityGroup.addIngressRule(securityGroup, ...)`) or an IPv4 CIDR
block (never used by the source, present so that absence of
`0.0.0.0/0` rules is expressible). -/
inductive IngressPeer where
  | selfGroup
  | ipv4 (cidr : String)
deriving DecidableEq

/-- `Port` from `@aws-cdk/aws-ec2`, restricted to the members the source
uses. -/
inductive Port where
  | allTraffic
deriving DecidableEq

/-- One ingress rule of a security group. -/
structure IngressRule where
  peer : IngressPeer
  port : Port
  description : String
deriving DecidableEq

/-- A security group: its name and the ingress rules added to it. -/
structure SecurityGroup where
  securityGroupName : String
  ingressRules : List IngressRule
deriving DecidableEq

/-- The properties the source passes to `new SubnetGroup` in
`generateSubnetGroup` (lines 209-217); `vpcSubnets` is the selected
subnet type. -/
structure SubnetGroupProps where
  subnetGroupName : String
  vpcSubnets : SubnetType
  removalPolicy : RemovalPolicy
  description : String
deriving DecidableEq

/-- The Aurora serverless cluster built by `generateAuroraCluster`
(lines 219-242).  `secret` is the ARN of the credential secret the cloud
provider auto-generates for the cluster; the source only ever reads it
through `this.auroraCluster.secret?.secretArn`, so it is carried as an
optional provider-assigned value. -/
structure ServerlessCluster where
  engine : String
  parameterGroup : String
  defaultDatabaseName : String
  enableDataApi : Bool
  subnetGroup : SubnetGroupProps
  securityGroups : List SecurityGroup
  removalPolicy : RemovalPolicy
  secret : Option String
deriving DecidableEq

/-- `Effect` from `@aws-cdk/aws-iam`. -/
inductive Effect where
  | ALLOW
  | DENY
deriving DecidableEq

/-- `PolicyStatement` from `@aws-cdk/aws-iam`, restricted to the fields
the source sets. -/
structure PolicyStatement where
  effect : Effect
  actions : List String
  resources : List String
deriving DecidableEq

/-- The bundling options passed to `NodejsFunction` (`minify`,
`sourceMap`, `nodeModules`); the `commandHooks` of the source are
build-time shell commands with no effect on the declared resources and
are not part of the resource model. -/
structure BundlingOptions where
  minify : Bool
  sourceMap : Bool
  nodeModules : List String := []
deriving DecidableEq

/-- The override object `FunctionProps.options` (a
`NodejsFunctionProps`), restricted to the keys the source ever places in
it.  A `none` field is an absent key, so the object spread
`...options` leaves the default in place. -/
structure NodejsFunctionOptions where
  functionName : Option String := none
  bundling : Option BundlingOptions := none
deriving DecidableEq

/-- The `FunctionProps` interface of the source (lines 26-31). -/
structure FunctionProps where
  id : String
  handler : String
  entry : String
  options : Option NodejsFunctionOptions := none
deriving DecidableEq

/-- The lambda produced by `getFunctionConstruct`: the `NodejsFunction`
properties after the `...options` spread, together with the role policy
statements attached by `addToRolePolicy`. -/
structure NodejsFunction where
  runtime : String
  functionName : String
  entry : String
  handler : String
  timeoutSeconds : Nat
  memorySize : Nat
  environment : List (String × String)
  bundling : BundlingOptions
  policies : List PolicyStatement
deriving DecidableEq

/-- The properties the source passes to `new InterfaceVpcEndpoint` in
`getVPCEndpoint` (lines 123-137). -/
structure InterfaceVpcEndpointProps where
  service : String
  privateDnsEnabled : Bool
  subnets : SubnetType
  securityGroups : List SecurityGroup
deriving DecidableEq

/-- The `LambdaRestApi` of the constructor (lines 96-108), together with
the routing added after it (`root.addResource('api')` then a proxy
accepting any method). -/
structure LambdaRestApiProps where
  restApiName : String
  description : String
  handlerFunctionName : String
  proxy : Bool
  stageName : String
  rootResourcePath : String
  proxyAnyMethod : Bool
deriving DecidableEq

/-- The `ConstructProps` consumed by the constructor.  The interface file
itself (`src/lib/interface.ts`) is not under `src/`; the only field the
construct reads is `props.stage`, optional per the `||` default at
line 43 and the spec ("a stage string (default dev)"). -/
structure ConstructProps where
  stage : Option String := none
deriving DecidableEq

/-- Everything `JCashBEConstruct`'s constructor creates, one field per
resource handle. -/
structure Composition where
  stage : String
  vpc : VpcProps
  securityGroup : SecurityGroup
  subnetGroup : SubnetGroupProps
  auroraCluster : ServerlessCluster
  vpcEndpoint : InterfaceVpcEndpointProps
  graphqlAPILambda : NodejsFunction
  restApi : LambdaRestApiProps
deriving DecidableEq

/-- `generateVPC` (lines 173-193). -/
def generateVPC : VpcProps :=
  { cidr := "10.0.0.0/20"
    natGateways := 0
    maxAzs := 2
    enableDnsHostnames := true
    enableDnsSupport := true
    subnetConfiguration :=
      [ { cidrMask := 22, name := "public", subnetType := SubnetType.PUBLIC }
      , { cidrMask := 22, name := "private",
          subnetType := SubnetType.PRIVATE_ISOLATED } ] }

/-- `generateSecurityGroup` (lines 195-207): a group named
`JCash-Security-Group` with the single self-referential all-traffic
ingress rule added right after creation. -/
def generateSecurityGroup : SecurityGroup :=
  { securityGroupName := "JCash-Security-Group"
    ingressRules :=
      [ { peer := IngressPeer.selfGroup
          port := Port.allTraffic
          description := "allow internal security group access" } ] }

/-- `generateSubnetGroup` (lines 209-217). -/
def generateSubnetGroup : SubnetGroupProps :=
  { subnetGroupName := "JCash-RDS-Subnet-Group"
    vpcSubnets := SubnetType.PRIVATE_ISOLATED
    removalPolicy := RemovalPolicy.DESTROY
    description := "private isolated subnet group for db" }

/-- `generateAuroraCluster` (lines 219-242); `providerSecretArn` is the
ARN of the credential secret the provider generates for the cluster. -/
def generateAuroraCluster (stage : String) (subnetGroup : SubnetGroupProps)
    (securityGroup : SecurityGroup) (providerSecretArn : Option String) :
    ServerlessCluster :=
  { engine := "AURORA_POSTGRESQL"
    parameterGroup := "default.aurora-postgresql10"
    defaultDatabaseName := "JCashDB-" ++ stage
    enableDataApi := true
    subnetGroup := subnetGroup
    securityGroups := [securityGroup]
    removalPolicy := RemovalPolicy.DESTROY
    secret := providerSecretArn }

/-- `getLambdaRolePolicy` (lines 115-121). -/
def getLambdaRolePolicy (auroraCluster : ServerlessCluster) : PolicyStatement :=
  { effect := Effect.ALLOW
    actions := ["secretsmanager:GetSecretValue"]
    resources := [jsOrOptStr auroraCluster.secret ""] }

/-- `getVPCEndpoint` (lines 123-137). -/
def getVPCEndpoint (securityGroup : SecurityGroup) :
    InterfaceVpcEndpointProps :=
  { service := "SECRETS_MANAGER"
    privateDnsEnabled := true
    subnets := SubnetType.PRIVATE_ISOLATED
    securityGroups := [securityGroup] }

/-- `getFunctionConstruct` (lines 139-171).  The literal props object is
built first and `...options` is spread over it last, so a key present in
`options` overrides the literal one; afterwards the single role policy
statement from `getLambdaRolePolicy` is attached. -/
def getFunctionConstruct (stage : String) (auroraCluster : ServerlessCluster)
    (processEnvENV : Option String) (fp : FunctionProps) : NodejsFunction :=
  let opts := fp.options.getD {}
  { runtime := "NODEJS_14_X"
    functionName := opts.functionName.getD ("jcash-" ++ fp.handler ++ "-" ++ stage)
    entry := "../packages/lambda/src/" ++ fp.entry ++ ".ts"
    handler := fp.handler
    timeoutSeconds := 30
    memorySize := 256
    environment :=
      [ ("ENV", jsOrOptStr processEnvENV "development")
      , ("SECRET_ID", jsOrOptStr auroraCluster.secret "")
      , ("AWS_NODEJS_CONNECTION_REUSE_ENABLED", "1") ]
    bundling := opts.bundling.getD { minify := true, sourceMap := true }
    policies := [getLambdaRolePolicy auroraCluster] }

/-- The constructor of `JCashBEConstruct` (lines 40-109), run top to
bottom.  `providerSecretArn` is the provider-generated secret ARN of the
Aurora cluster and `processEnvENV` is `process.env.ENV`, both read (not
produced) by the source. -/
def compose (props : ConstructProps) (providerSecretArn : Option String)
    (processEnvENV : Option String) : Composition :=
  let stage := jsOrOptStr props.stage "dev"
  let vpc := generateVPC
  let securityGroup := generateSecurityGroup
  let subnetGroup := generateSubnetGroup
  let auroraCluster :=
    generateAuroraCluster stage subnetGroup securityGroup providerSecretArn
  let vpcEndpoint := getVPCEndpoint securityGroup
  let graphqlAPILambda :=
    getFunctionConstruct stage auroraCluster processEnvENV
      { id := "graphqlAPILambda"
        handler := "handler"
        entry := "handler"
        options := some
          { functionName := some ("jcash-graphqlAPILambda-" ++ stage)
            bundling := some
              { minify := true
                sourceMap := true
                nodeModules := ["readable-stream", "@prisma/client"] } } }
  { stage := stage
    vpc := vpc
    securityGroup := securityGroup
    subnetGroup := subnetGroup
    auroraCluster := auroraCluster
    vpcEndpoint := vpcEndpoint
    graphqlAPILambda := graphqlAPILambda
    restApi :=
      { restApiName := "JCash API"
        description := "The JCash API Service"
        handlerFunctionName := graphqlAPILambda.functionName
        proxy := false
        stageName := jsOrStr stage "dev"
        rootResourcePath := "api"
        proxyAnyMethod := true } }

/-- The explicit names the composition assigns to its resources: the
security group name, the subnet group name, the default database name,
the lambda function name and the REST API name. -/
def Composition.resourceNames (c : Composition) : List String :=
  [ c.securityGroup.securityGroupName
  , c.subnetGroup.subnetGroupName
  , c.auroraCluster.defaultDatabaseName
  , c.graphqlAPILambda.functionName
  , c.restApi.restApiName ]

/-- Modelled from the spec: the second composition (the variant 2 API
front door) is not under src/.  HTTP methods of its explicit routes. -/
inductive HttpMethod where
  | GET
  | POST
  | PUT
  | DELETE
  | OPTIONS
deriving DecidableEq

/-- Modelled from the spec: outcome of routing one request in the
variant 2 API — a synthetic (mock) fixed response, a forward to the one
compute unit, or no matching route. -/
inductive RouteResult where
  | mock (status : Nat) (headers : List (String × String))
  | forwardToCompute
  | notFound
deriving DecidableEq

/-- Modelled from the spec: the four permissive CORS headers of the
variant 2 preflight responder.  The spec fixes the values of
Allow-Origin, Allow-Credentials and Allow-Methods and names
Allow-Headers without fixing its value; a standard permissive header
list is used for it. -/
def corsPreflightHeaders : List (String × String) :=
  [ ("Access-Control-Allow-Headers",
     "Content-Type,X-Amz-Date,Authorization,X-Api-Key,X-Amz-Security-Token")
  , ("Access-Control-Allow-Origin", "*")
  , ("Access-Control-Allow-Credentials", "false")
  , ("Access-Control-Allow-Methods", "OPTIONS,GET,PUT,POST,DELETE") ]

/-- Modelled from the spec: variant 2 routing on the fixed path segment
test — explicit GET and POST routes to the compute unit, and an OPTIONS
preflight answered by a synthetic integration returning a fixed 200 with
the permissive CORS headers and no pass-through body evaluation. -/
def variant2Handle (m : HttpMethod) (p : String) : RouteResult :=
  if p = "test" then
    match m with
    | HttpMethod.GET => RouteResult.forwardToCompute
    | HttpMethod.POST => RouteResult.forwardToCompute
    | HttpMethod.OPTIONS => RouteResult.mock 200 corsPreflightHeaders
    | _ => RouteResult.notFound
  else RouteResult.notFound

/-- Appending to a fixed prefix is injective on strings. -/
theorem string_append_left_cancel {p s t : String} (h : p ++ s = p ++ t) :
    s = t := by
  have h2 : (p ++ s).data = (p ++ t).data := congrArg String.data h
  simp only [String.data_append] at h2
  exact String.ext (List.append_cancel_left h2)

/-- C1: the claim says the single IAM statement's resource ARN is never
the empty string, including when the cluster has no secret; but at the
failing input where the cluster has no generated secret, the code
attaches the Allow statement for secretsmanager:GetSecretValue with
resource list containing exactly the empty string. -/
theorem C1_empty_string_resource_when_secret_missing :
    (compose { stage := some "prod" } none none).graphqlAPILambda.policies =
      [ { effect := Effect.ALLOW
          actions := ["secretsmanager:GetSecretValue"]
          resources := [""] } ] := by
  decide

/-- C2 counterexample: composing with stage prod yields the function
name jcash-graphqlAPILambda-prod, not jcash-handler-prod, because the
options spread overrides the default functionName. -/
theorem C2_counterexample :
    (compose { stage := some "prod" } none none).graphqlAPILambda.functionName ≠
      "jcash-handler-prod" := by
  decide

/-- C2 (amended): composing with stage prod produces a compute function
named jcash-graphqlAPILambda-prod (the explicit functionName option
overrides the jcash-handler-prod default) and an API deployment whose
stage name literal is prod. -/
theorem C2_prod_stage_names (providerSecretArn processEnvENV : Option String) :
    (compose { stage := some "prod" } providerSecretArn
        processEnvENV).graphqlAPILambda.functionName =
      "jcash-graphqlAPILambda-prod" ∧
    (compose { stage := some "prod" } providerSecretArn
        processEnvENV).restApi.stageName = "prod" :=
  ⟨rfl, rfl⟩

/-- C3 counterexample: the name sets of two compositions with distinct
stages a and b are not disjoint — the fixed literal
JCash-Security-Group occurs in both. -/
theorem C3_counterexample :
    ("a" : String) ≠ "b" ∧
    "JCash-Security-Group" ∈
      (compose { stage := some "a" } none none).resourceNames ∧
    "JCash-Security-Group" ∈
      (compose { stage := some "b" } none none).resourceNames := by
  decide

/-- C3 (amended): the stage-interpolated names (default database name,
function name) differ for distinct nonempty stages, but the security
group name is a fixed literal shared by every stage, so the full name
sets of two stages are not disjoint. -/
theorem C3_stage_interpolated_names_differ (s1 s2 : String)
    (sa1 sa2 env1 env2 : Option String)
    (h1 : s1 ≠ "") (h2 : s2 ≠ "") (hne : s1 ≠ s2) :
    (compose { stage := some s1 } sa1 env1).auroraCluster.defaultDatabaseName ≠
      (compose { stage := some s2 } sa2 env2).auroraCluster.defaultDatabaseName ∧
    (compose { stage := some s1 } sa1 env1).graphqlAPILambda.functionName ≠
      (compose { stage := some s2 } sa2 env2).graphqlAPILambda.functionName ∧
    (compose { stage := some s1 } sa1 env1).securityGroup.securityGroupName =
      (compose { stage := some s2 } sa2 env2).securityGroup.securityGroupName := by
  have e1 : (compose { stage := some s1 } sa1
      env1).auroraCluster.defaultDatabaseName = "JCashDB-" ++ s1 := by
    simp [compose, generateAuroraCluster, jsOrOptStr, jsOrStr, h1]
  have e2 : (compose { stage := some s2 } sa2
      env2).auroraCluster.defaultDatabaseName = "JCashDB-" ++ s2 := by
    simp [compose, generateAuroraCluster, jsOrOptStr, jsOrStr, h2]
  have f1 : (compose { stage := some s1 } sa1
      env1).graphqlAPILambda.functionName = "jcash-graphqlAPILambda-" ++ s1 := by
    simp [compose, getFunctionConstruct, jsOrOptStr, jsOrStr, h1]
  have f2 : (compose { stage := some s2 } sa2
      env2).graphqlAPILambda.functionName = "jcash-graphqlAPILambda-" ++ s2 := by
    simp [compose, getFunctionConstruct, jsOrOptStr, jsOrStr, h2]
  refine ⟨?_, ?_, rfl⟩
  · rw [e1, e2]
    intro hEq
    exact hne (string_append_left_cancel hEq)
  · rw [f1, f2]
    intro hEq
    exact hne (string_append_left_cancel hEq)

/-- C3 witness: the amended statement at stages a and b. -/
theorem C3_stage_interpolated_names_differ_witness :
    (compose { stage := some "a" } none none).auroraCluster.defaultDatabaseName ≠
      (compose { stage := some "b" } none none).auroraCluster.defaultDatabaseName ∧
    (compose { stage := some "a" } none none).graphqlAPILambda.functionName ≠
      (compose { stage := some "b" } none none).graphqlAPILambda.functionName ∧
    (compose { stage := some "a" } none none).securityGroup.securityGroupName =
      (compose { stage := some "b" } none none).securityGroup.securityGroupName :=
  C3_stage_interpolated_names_differ "a" "b" none none none none
    (by decide) (by decide) (by decide)

/-- C4: the default database name is JCashDB-(resolved stage) for every
composition, and when no stage is supplied the stage resolves to dev in
every interpolation — database name, function name and API deployment
stage name. -/
theorem C4_stage_defaults :
    (∀ (props : ConstructProps) (sa env : Option String),
        (compose props sa env).auroraCluster.defaultDatabaseName =
          "JCashDB-" ++ jsOrOptStr props.stage "dev") ∧
    (∀ sa env : Option String,
        (compose { stage := none } sa env).auroraCluster.defaultDatabaseName =
          "JCashDB-dev" ∧
        (compose { stage := none } sa env).graphqlAPILambda.functionName =
          "jcash-graphqlAPILambda-dev" ∧
        (compose { stage := none } sa env).restApi.stageName = "dev") :=
  ⟨fun _ _ _ => rfl, fun _ _ => ⟨rfl, rfl, rfl⟩⟩

/-- C5: every composition's network topology has zero NAT gateways,
exactly 2 availability zones, DNS support and hostnames enabled, exactly
one public and one private-isolated subnet tier, and one synthesized
subnet of each tier in each of the 2 availability zones. -/
theorem C5_network_topology (props : ConstructProps) (sa env : Option String) :
    (compose props sa env).vpc.natGateways = 0 ∧
    (compose props sa env).vpc.maxAzs = 2 ∧
    (compose props sa env).vpc.enableDnsSupport = true ∧
    (compose props sa env).vpc.enableDnsHostnames = true ∧
    (compose props sa env).vpc.subnetConfiguration =
      [ { cidrMask := 22, name := "public", subnetType := SubnetType.PUBLIC }
      , { cidrMask := 22, name := "private",
          subnetType := SubnetType.PRIVATE_ISOLATED } ] ∧
    (compose props sa env).vpc.synthesizedSubnets =
      [ (0, { cidrMask := 22, name := "public",
              subnetType := SubnetType.PUBLIC })
      , (0, { cidrMask := 22, name := "private",
              subnetType := SubnetType.PRIVATE_ISOLATED })
      , (1, { cidrMask := 22, name := "public",
              subnetType := SubnetType.PUBLIC })
      , (1, { cidrMask := 22, name := "private",
              subnetType := SubnetType.PRIVATE_ISOLATED }) ] :=
  ⟨rfl, rfl, rfl, rfl, rfl, rfl⟩

/-- C6: every composition's security group carries exactly the single
self-referential all-traffic ingress rule; in particular no rule with an
unrestricted CIDR source is ever added. -/
theorem C6_single_self_ingress_rule (props : ConstructProps)
    (sa env : Option String) :
    (compose props sa env).securityGroup.ingressRules =
      [ { peer := IngressPeer.selfGroup
          port := Port.allTraffic
          description := "allow internal security group access" } ] :=
  rfl

/-- C7: the data tier's subnet group and the secrets-manager interface
endpoint both select only the private-isolated subnet tier, and the
endpoint has private DNS enabled and is attached to the composition's
shared security group. -/
theorem C7_private_isolated_only (props : ConstructProps)
    (sa env : Option String) :
    (compose props sa env).subnetGroup.vpcSubnets =
      SubnetType.PRIVATE_ISOLATED ∧
    (compose props sa env).vpcEndpoint.subnets =
      SubnetType.PRIVATE_ISOLATED ∧
    (compose props sa env).vpcEndpoint.privateDnsEnabled = true ∧
    (compose props sa env).vpcEndpoint.securityGroups =
      [(compose props sa env).securityGroup] :=
  ⟨rfl, rfl, rfl, rfl⟩

/-- C8: in the variant 2 composition, an OPTIONS request on the test
path yields the synthetic 200 response whose header set contains
Access-Control-Allow-Origin star and Access-Control-Allow-Methods
OPTIONS,GET,PUT,POST,DELETE, while GET and POST on the same path still
forward to the compute unit (the preflight has no other method side
effects). -/
theorem C8_cors_preflight :
    variant2Handle HttpMethod.OPTIONS "test" =
      RouteResult.mock 200 corsPreflightHeaders ∧
    ("Access-Control-Allow-Origin", "*") ∈ corsPreflightHeaders ∧
    ("Access-Control-Allow-Methods", "OPTIONS,GET,PUT,POST,DELETE") ∈
      corsPreflightHeaders ∧
    variant2Handle HttpMethod.GET "test" = RouteResult.forwardToCompute ∧
    variant2Handle HttpMethod.POST "test" = RouteResult.forwardToCompute := by
  decide

/-- C9: in every composition, the SECRET_ID environment variable of the
compute unit equals the single resource ARN of its single attached IAM
statement — both are the falsy-defaulted secret ARN of the cluster. -/
theorem C9_secret_env_equals_policy_resource (props : ConstructProps)
    (sa env : Option String) :
    ∃ v : String,
      ((compose props sa env).graphqlAPILambda.environment.lookup
        "SECRET_ID") = some v ∧
      (compose props sa env).graphqlAPILambda.policies.map
        PolicyStatement.resources = [[v]] :=
  ⟨jsOrOptStr sa "", rfl, rfl⟩

/-- C10: supplying the empty string as the stage yields the very same
composition as supplying no stage at all, because the default is applied
by a JavaScript falsiness test. -/
theorem C10_empty_stage_equals_no_stage (sa env : Option String) :
    compose { stage := some "" } sa env = compose { stage := none } sa env :=
  rfl

end JCash
